import Mathlib

/-!
Shallow embedding of the moderation core of the bot repository
(defense modules, defense engine, command dispatcher, middleware and the
per-user moderation store), together with theorems checking the
specification's claims against it.

Conventions:
* JavaScript strings are Lean `String`s; per-key JS objects used as maps
  are modelled as functions `String → Option α`.
* Machine time (`Date.now()`) is a `Nat` number of milliseconds.
* Fallible or absent values are `Option`s.
-/

namespace Bot

/-- Severity levels produced by the detection modules
(source: string literals such as the results of
`AntiVirtex.calculateLengthSeverity` and `AntiToxic.calculateSeverity`). -/
inductive Severity
  | low
  | medium
  | high
  | critical
  deriving DecidableEq, Repr, Fintype

/-- Defense modes (source: `validModes = ['NORMAL', 'STRICT', 'LOCKDOWN']`
in `DefenseEngine.setDefenseMode`). -/
inductive DefenseMode
  | NORMAL
  | STRICT
  | LOCKDOWN
  deriving DecidableEq, Repr, Fintype

/-- Moderation actions returned by the per-module `determineAction`
functions (string literals 'warn' / 'mute' / 'kick' in the source). -/
inductive ModAction
  | warn
  | mute
  | kick
  deriving DecidableEq, Repr, Fintype

/-- The `actionMatrix` object literal inside `AntiVirtex.determineAction`:
a partial map from (mode, severity); absent keys yield `none`,
mirroring the optional-chaining lookup `actionMatrix[defenseMode]?.[severity]`. -/
def virtexActionMatrix : DefenseMode → Severity → Option ModAction
  | .NORMAL, .low => some .warn
  | .NORMAL, .medium => some .warn
  | .NORMAL, .high => some .warn
  | .STRICT, .low => some .warn
  | .STRICT, .medium => some .warn
  | .STRICT, .high => some .kick
  | .LOCKDOWN, .low => some .warn
  | .LOCKDOWN, .medium => some .kick
  | .LOCKDOWN, .high => some .kick
  | _, .critical => none

/-- Embedding of `AntiVirtex.determineAction(severity, defenseMode)`:
critical always kicks, otherwise the matrix lookup with fallback 'warn'. -/
def antiVirtexDetermineAction (severity : Severity) (defenseMode : DefenseMode) : ModAction :=
  if severity = .critical then .kick
  else (virtexActionMatrix defenseMode severity).getD .warn

/-- The `actionMatrix` object literal inside `AntiToxic.determineAction`.
Note it differs from the AntiVirtex matrix and has no row for `critical`. -/
def toxicActionMatrix : DefenseMode → Severity → Option ModAction
  | .NORMAL, .low => some .warn
  | .NORMAL, .medium => some .warn
  | .NORMAL, .high => some .warn
  | .STRICT, .low => some .warn
  | .STRICT, .medium => some .mute
  | .STRICT, .high => some .mute
  | .LOCKDOWN, .low => some .mute
  | .LOCKDOWN, .medium => some .kick
  | .LOCKDOWN, .high => some .kick
  | _, .critical => none

/-- Embedding of `AntiToxic.determineAction(severity, defenseMode)`:
pure matrix lookup with fallback 'warn' and no special case for critical. -/
def antiToxicDetermineAction (severity : Severity) (defenseMode : DefenseMode) : ModAction :=
  (toxicActionMatrix defenseMode severity).getD .warn

/-- Modelled from the spec's action-matrix table (section 4.4, step 4):
NORMAL maps low/medium/high to warn; STRICT maps low to warn and
medium/high to mute; LOCKDOWN maps low to warn and medium/high to kick;
critical always yields kick. Used only to compare the spec's single
claimed matrix with the per-module matrices found in the source. -/
def specActionMatrix (severity : Severity) (defenseMode : DefenseMode) : ModAction :=
  match severity, defenseMode with
  | .critical, _ => .kick
  | .low, _ => .warn
  | _, .NORMAL => .warn
  | _, .STRICT => .mute
  | _, .LOCKDOWN => .kick

/-- The `users.warned` object of the persistent store: a map from user
number to warning count, modelled as a partial function. -/
def WarnMap := String → Option Nat

/-- Embedding of `Database.getWarnCount(number)`:
`this.get(users.warned.number) || 0`. -/
def getWarnCount (m : WarnMap) (number : String) : Nat :=
  (m number).getD 0

/-- Point update of the `users.warned` map, as performed by
`this.set(users.warned.number, count)`. -/
def setWarnEntry (m : WarnMap) (number : String) (count : Nat) : WarnMap :=
  fun k => if k = number then some count else m k

/-- Embedding of `Database.addWarn(number)`: increments the stored count
and returns the new count together with the updated store. -/
def addWarn (m : WarnMap) (number : String) : WarnMap × Nat :=
  let count := getWarnCount m number + 1
  (setWarnEntry m number count, count)

/-- Embedding of `Database.resetWarn(number)`: deletes the user's entry
from the `users.warned` map. -/
def resetWarn (m : WarnMap) (number : String) : WarnMap :=
  fun k => if k = number then none else m k

/-- Command roles used by the dispatcher and the auth middleware
(source: the role strings 'author' / 'owner' / 'user'). -/
inductive Role
  | author
  | owner
  | user
  deriving DecidableEq, Repr, Fintype

/-- The `roleHierarchy` object in `AuthMiddleware.checkRole`. -/
def roleLevel : Role → Nat
  | .author => 3
  | .owner => 2
  | .user => 1

/-- Bot operating modes (source: `Database.getBotMode`, values
'PUBLIC' (default) and 'SELF'). -/
inductive BotMode
  | PUBLIC
  | SELF
  deriving DecidableEq, Repr, Fintype

/-- The slice of the persistent store consulted by the auth middleware:
the process-wide author/owner lists and the blacklist/disabled lists,
plus the bot operating mode (source: `Database` accessors
`isAuthor`, `isOwner`, `isBlacklisted`, `isDisabled`, `getBotMode`). -/
structure AuthDb where
  authors : List String
  owners : List String
  blacklisted : List String
  disabled : List String
  botMode : BotMode
  deriving DecidableEq, Repr

/-- Embedding of `Database.isAuthor(number)`. -/
def isAuthor (db : AuthDb) (number : String) : Bool :=
  db.authors.contains number

/-- Embedding of `Database.isOwner(number)`. -/
def isOwner (db : AuthDb) (number : String) : Bool :=
  db.owners.contains number

/-- Embedding of `Database.isAuthorOrOwner(number)`. -/
def isAuthorOrOwner (db : AuthDb) (number : String) : Bool :=
  isAuthor db number || isOwner db number

/-- Embedding of `Database.isBlacklisted(number)`. -/
def isBlacklisted (db : AuthDb) (number : String) : Bool :=
  db.blacklisted.contains number

/-- Embedding of `Database.isDisabled(number)`. -/
def isDisabled (db : AuthDb) (number : String) : Bool :=
  db.disabled.contains number

/-- Failure reasons of the auth middleware (source: the `reason` strings
in `AuthMiddleware.checkAuth` / `checkRole`). -/
inductive AuthReason
  | disabledUser
  | blacklistedUser
  | selfMode
  | insufficientRole
  deriving DecidableEq, Repr

/-- Result of an authorization check: the `authorized` flag plus the
failure reason when denied. -/
structure AuthResult where
  authorized : Bool
  reason : Option AuthReason
  deriving DecidableEq, Repr

/-- Characters of the first segment of a string split at the character
at-sign: everything before the first occurrence. -/
def charsBeforeAt : List Char → List Char
  | [] => []
  | c :: rest => if c = '@' then [] else c :: charsBeforeAt rest

/-- The `sender.split('@')[0]` idiom used throughout the source to turn
a JID into a bare number: the segment before the first at-sign (the
whole string when none occurs). -/
def numberOf (sender : String) : String :=
  String.mk (charsBeforeAt sender.toList)

/-- Embedding of `AuthMiddleware.checkRole(number, requiredRole)`:
derives the user's role from the author/owner lists and compares its
numeric rank against the required role. -/
def checkRole (db : AuthDb) (number : String) (requiredRole : Role) : AuthResult :=
  let userRole : Role :=
    if isAuthor db number then .author
    else if isOwner db number then .owner
    else .user
  if roleLevel userRole < roleLevel requiredRole then
    ⟨false, some .insufficientRole⟩
  else
    ⟨true, none⟩

/-- Embedding of `AuthMiddleware.checkAuth(sender, command, requiredRole)`:
short-circuits on disabled, blacklisted, SELF-mode-and-not-author, then
falls through to the role check. -/
def checkAuth (db : AuthDb) (sender : String) (requiredRole : Role) : AuthResult :=
  let senderNumber := numberOf sender
  if isDisabled db senderNumber then ⟨false, some .disabledUser⟩
  else if isBlacklisted db senderNumber then ⟨false, some .blacklistedUser⟩
  else if db.botMode = .SELF && !isAuthor db senderNumber then ⟨false, some .selfMode⟩
  else checkRole db senderNumber requiredRole

/-- Observable moderation events emitted while handling a violation
(message deletion, warn notice with the announced count, kick, mute). -/
inductive HandleEvent
  | msgDeleted
  | warnNotice (count : Nat)
  | kicked
  | muted (minutes : Nat)
  deriving DecidableEq, Repr

/-- Embedding of `AntiVirtex.handle`: deletes the message, computes the
action from (severity, defense mode), and on a warn increments the
warning count; when the count reaches `maxWarn = 3` (literal in the
source) the user is kicked and the counter reset. Returns the updated
warn store and the emitted events in source order. -/
def antiVirtexHandle (m : WarnMap) (senderNumber : String)
    (severity : Severity) (defenseMode : DefenseMode) : WarnMap × List HandleEvent :=
  let action := antiVirtexDetermineAction severity defenseMode
  match action with
  | .warn =>
    let r := addWarn m senderNumber
    let maxWarn := 3
    if maxWarn ≤ r.2 then
      (resetWarn r.1 senderNumber, [.msgDeleted, .kicked, .warnNotice r.2])
    else
      (r.1, [.msgDeleted, .warnNotice r.2])
  | .kick => (m, [.msgDeleted, .kicked])
  | .mute => (m, [.msgDeleted])

/-- The `timeWindow` constant (one minute, in milliseconds) of
`CooldownMiddleware.checkGlobalRateLimit`. -/
def rateTimeWindow : Nat := 60000

/-- The `maxRequests` constant of
`CooldownMiddleware.checkGlobalRateLimit`. -/
def rateMaxRequests : Nat := 10

/-- Embedding of `CooldownMiddleware.checkGlobalRateLimit` for one user:
author/owner bypass, then lazy pruning of the user's timestamp list to
the entries inside the window, then the budget check; a non-limited
request is appended to the list, a limited one is not. Returns the
`limited` flag and the user's updated timestamp list. -/
def checkGlobalRateLimit (isPrivileged : Bool) (requests : List Nat) (now : Nat) :
    Bool × List Nat :=
  if isPrivileged then (false, requests)
  else
    let recentRequests := requests.filter (fun t => now - t < rateTimeWindow)
    if rateMaxRequests ≤ recentRequests.length then (true, recentRequests)
    else (false, recentRequests ++ [now])

/-- The user's timestamp list after a sequence of non-privileged rate
checks at the given call times. -/
def runRate : List Nat → List Nat → List Nat
  | [], s => s
  | t :: ts, s => runRate ts (checkGlobalRateLimit false s t).2

/-- The timestamps actually inserted into the window by a sequence of
non-privileged rate checks (limited requests are not recorded). -/
def insertedRate : List Nat → List Nat → List Nat
  | [], _ => []
  | t :: ts, s =>
    let step := checkGlobalRateLimit false s t
    if step.1 then insertedRate ts step.2
    else t :: insertedRate ts step.2

/-- Names of the five defense modules registered by the
`DefenseEngine` constructor. -/
inductive ModuleName
  | antiVirtex
  | antiToxic
  | antiLink
  | antiSpam
  | geoRestriction
  deriving DecidableEq, Repr, Fintype

/-- The `priority` field each module is registered with in the
`DefenseEngine` constructor (lower number runs first). -/
def modulePriority : ModuleName → Nat
  | .antiVirtex => 1
  | .antiToxic => 2
  | .antiLink => 3
  | .antiSpam => 4
  | .geoRestriction => 5

/-- The engine's `this.modules` list after the constructor sorts it by
ascending priority. -/
def defenseModules : List ModuleName :=
  [.antiVirtex, .antiToxic, .antiLink, .antiSpam, .geoRestriction]

/-- Embedding of `DefenseEngine.runModuleDetection` on the message path:
each module's own `detect` result, except geo-restriction which is only
checked on member join and always reports not-detected for messages. -/
def runModuleDetection (detect : ModuleName → Bool) (m : ModuleName) : Bool :=
  match m with
  | .geoRestriction => false
  | _ => detect m

/-- The module loop of `DefenseEngine.checkMessage`: iterate the modules
in order, skip those disabled for the group, run detection on the rest,
and stop at the first positive detection. Returns the module whose
verdict is acted upon (if any) together with the list of modules whose
detection actually ran, in order. -/
def checkMessageLoop (enabled detect : ModuleName → Bool) :
    List ModuleName → Option ModuleName × List ModuleName
  | [] => (none, [])
  | m :: rest =>
    if enabled m then
      if runModuleDetection detect m then (some m, [m])
      else
        let r := checkMessageLoop enabled detect rest
        (r.1, m :: r.2)
    else checkMessageLoop enabled detect rest

/-- Embedding of `DefenseEngine.checkMessage`: skip entirely for
unprotected groups, privileged senders (author/owner) and the bot's own
messages, otherwise run the module loop in priority order. -/
def defenseEngineCheckMessage (isGroupMsg isProtectedGroup isPrivileged isSelf : Bool)
    (enabled detect : ModuleName → Bool) : Option ModuleName × List ModuleName :=
  if isGroupMsg && !isProtectedGroup then (none, [])
  else if isPrivileged then (none, [])
  else if isSelf then (none, [])
  else checkMessageLoop enabled detect defenseModules

/-- Outcomes of the middleware calls and the handler invocation made by
`CommandManager.execute`, collected as one record so the dispatcher's
control flow can be embedded as a pure function of them. Each field is
the value the corresponding source call produces for this dispatch:
`commandExists` is whether the registry lookup found the command,
`authAuthorized` is `checkAuth(...).authorized`, `onCooldown` is
`checkCooldown(...).onCooldown`, `valid` is
`validateCommand(...).valid`, `rateLimited` is
`checkGlobalRateLimit(...).limited`, and `handlerThrows` is whether
`command.execute(...)` raises. -/
structure DispatchEnv where
  commandExists : Bool
  authAuthorized : Bool
  onCooldown : Bool
  valid : Bool
  rateLimited : Bool
  handlerThrows : Bool
  deriving DecidableEq, Repr

/-- The externally visible steps of one dispatch, in execution order:
the four middleware checks, reason messages sent on rejection, the
handler run, the usage-counter increment, the cooldown commit, and the
generic error report from the catch block. -/
inductive DispatchStep
  | authCheck
  | authReasonSent
  | cooldownCheck
  | cooldownReasonSent
  | validationCheck
  | validationReasonSent
  | rateCheck
  | rateReasonSent
  | handlerRun
  | usageIncremented
  | cooldownCommitted
  | errorReported
  deriving DecidableEq, Repr

/-- Embedding of the control flow of `CommandManager.execute`: an
unknown command silently returns false; otherwise the middleware
pipeline runs in order (auth, cooldown, validation, global rate limit),
each failure sending a reason message and returning false without
running anything later; then the handler runs, and only on handler
success are the usage counter incremented and the cooldown committed.
A handler exception is caught, reported, and returns false. Returns the
success flag and the executed steps in order. -/
def commandManagerExecute (env : DispatchEnv) : Bool × List DispatchStep :=
  if !env.commandExists then (false, [])
  else if !env.authAuthorized then (false, [.authCheck, .authReasonSent])
  else if env.onCooldown then
    (false, [.authCheck, .cooldownCheck, .cooldownReasonSent])
  else if !env.valid then
    (false, [.authCheck, .cooldownCheck, .validationCheck, .validationReasonSent])
  else if env.rateLimited then
    (false, [.authCheck, .cooldownCheck, .validationCheck, .rateCheck, .rateReasonSent])
  else if env.handlerThrows then
    (false, [.authCheck, .cooldownCheck, .validationCheck, .rateCheck,
      .handlerRun, .errorReported])
  else
    (true, [.authCheck, .cooldownCheck, .validationCheck, .rateCheck,
      .handlerRun, .usageIncremented, .cooldownCommitted])

/-- UTF-16 encoding of one character: a basic-plane character is one
code unit, an astral character splits into a high/low surrogate pair.
Because the pair's two units differ, two adjacent identical astral
characters never contribute a run of equal code units. -/
def charUtf16 (c : Char) : List Nat :=
  let n := c.toNat
  if n < 65536 then [n]
  else
    let m := n - 65536
    [55296 + m / 1024, 56320 + m % 1024]

/-- The UTF-16 code units of a string: the sequence the JavaScript
regex engine actually matches against. -/
def utf16Units (s : String) : List Nat :=
  s.toList.foldr (fun c acc => charUtf16 c ++ acc) []

/-- Helper for maximal runs of equal adjacent elements, carrying the
current run's element and length. -/
def runsGo {α : Type} [DecidableEq α] (c : α) (k : Nat) : List α → List (α × Nat)
  | [] => [(c, k)]
  | d :: rest => if d = c then runsGo c (k + 1) rest else (c, k) :: runsGo d 1 rest

/-- All maximal runs of equal adjacent elements of a list. -/
def runsOf {α : Type} [DecidableEq α] : List α → List (α × Nat)
  | [] => []
  | c :: rest => runsGo c 1 rest

/-- Whether the JavaScript dot (without the dotAll flag) matches a
UTF-16 code unit: any unit except the line terminators LF (10), CR
(13), LINE SEPARATOR (8232) and PARAGRAPH SEPARATOR (8233). -/
def jsDotMatches (u : Nat) : Bool :=
  !(u = 10 || u = 13 || u = 8232 || u = 8233)

/-- The matches of the repeated-character regex (one unit captured by
the dot followed by nine or more backreferences), shared by
`AntiVirtex.checkRepeatedCharacters` and `AntiSpam.detectCharacterFlood`:
maximal runs of at least 10 equal adjacent UTF-16 code units whose unit
the dot can capture — runs of line terminators never match. -/
def charFloodMatches (units : List Nat) : List (Nat × Nat) :=
  (runsOf units).filter (fun r => jsDotMatches r.1 && 10 ≤ r.2)

/-- The `repeatedCharThreshold: 50` setting of the AntiVirtex
constructor. -/
def repeatedCharThreshold : Nat := 50

/-- The length of the longest run of equal adjacent UTF-16 code units
whose unit the dot can capture. -/
def maxFloodRunLen (units : List Nat) : Nat :=
  (((runsOf units).filter (fun r => jsDotMatches r.1)).map (fun r => r.2)).foldr max 0

/-- Payload of a positive repeated-character detection: the repeated
code unit (`matches[0].charAt(0)`), the longest repeat count, and the
severity, which the source fixes to 'high'. -/
structure RepeatedDetection where
  characterUnit : Nat
  count : Nat
  severity : Severity
  deriving DecidableEq, Repr

/-- Embedding of `AntiVirtex.checkRepeatedCharacters(message)`: collect
the regex matches over the message's UTF-16 code units; if any exist
and the longest is at least `repeatedCharThreshold` (50), report a
detection of severity high; otherwise report none. -/
def checkRepeatedCharacters (message : String) : Option RepeatedDetection :=
  match charFloodMatches (utf16Units message) with
  | [] => none
  | m :: rest =>
    let longestRepeat := ((m :: rest).map (fun r => r.2)).foldr max 0
    if repeatedCharThreshold ≤ longestRepeat then
      some ⟨m.1, longestRepeat, .high⟩
    else none

/-- The AntiSpam constructor's settings: `timeWindow` is
`security.antiSpamTime` (default 10 seconds) in milliseconds,
`messageThreshold` is `security.antiSpamThreshold` (default 5),
`duplicateThreshold` is 3, and `characterFloodThreshold` is 10 (declared
but unused by the detector, whose regex hard-codes run length 10). -/
structure SpamSettings where
  timeWindow : Nat
  messageThreshold : Nat
  duplicateThreshold : Nat
  characterFloodThreshold : Nat
  deriving DecidableEq, Repr

/-- The default AntiSpam settings under the default configuration. -/
def antiSpamSettings : SpamSettings :=
  ⟨10000, 5, 3, 10⟩

/-- One tracked message of the AntiSpam per-user history:
`{ timestamp, content }`. -/
structure TrackedMsg where
  timestamp : Nat
  content : String
  deriving DecidableEq, Repr

/-- The AntiSpam `messageTracker` map from sender number to message
history, modelled as a total function defaulting to the empty list. -/
def MessageTracker := String → List TrackedMsg

/-- Point update of the message tracker
(`this.messageTracker.set(senderNumber, recentMessages)`). -/
def setTrackerEntry (tr : MessageTracker) (k : String) (v : List TrackedMsg) :
    MessageTracker :=
  fun q => if q = k then v else tr q

/-- The JavaScript `toLowerCase()` on a string, character by character. -/
def jsToLower (s : String) : String :=
  String.mk (s.toList.map Char.toLower)

/-- The JavaScript `trim()`: strip leading and trailing whitespace. -/
def jsTrim (s : String) : String :=
  String.mk (((s.toList.dropWhile Char.isWhitespace).reverse.dropWhile
    Char.isWhitespace).reverse)

/-- The `content.toLowerCase().trim()` normalisation used by
`AntiSpam.detectDuplicate`. -/
def normalizeContent (s : String) : String :=
  jsTrim (jsToLower s)

/-- Number of occurrences of a string in a list of strings. -/
def countEqStr (l : List String) (x : String) : Nat :=
  (l.filter (fun y => y = x)).length

/-- The maximum duplicate count over the grouped message contents
(`Math.max(...Object.values(contentCounts))`). -/
def maxDuplicates (l : List String) : Nat :=
  (l.map (fun x => countEqStr l x)).foldr max 0

/-- Embedding of `AntiSpam.detectRapidFire(messages)`. -/
def detectRapidFire (messages : List TrackedMsg) : Bool :=
  antiSpamSettings.messageThreshold ≤ messages.length

/-- Embedding of `AntiSpam.detectDuplicate(messages)`: fewer than two
messages never count; otherwise the maximal duplicate count of the
normalised contents is compared against the duplicate threshold. -/
def detectDuplicate (messages : List TrackedMsg) : Bool :=
  if messages.length < 2 then false
  else antiSpamSettings.duplicateThreshold ≤
    maxDuplicates (messages.map (fun m => normalizeContent m.content))

/-- Embedding of `AntiSpam.detectCharacterFlood(message)`: detected
exactly when the repeated-character regex matches the message's UTF-16
code units. -/
def detectCharacterFloodSpam (content : String) : Bool :=
  !(charFloodMatches (utf16Units content)).isEmpty

/-- Spam verdict categories (source: `AntiSpam.getSpamType`). -/
inductive SpamType
  | rapidFire
  | duplicate
  | characterFlood
  | noSpam
  deriving DecidableEq, Repr

/-- Embedding of `AntiSpam.getSpamType`: rapid fire wins over duplicate
wins over character flood. -/
def getSpamType (rapid dup flood : Bool) : SpamType :=
  if rapid then .rapidFire
  else if dup then .duplicate
  else if flood then .characterFlood
  else .noSpam

/-- The verdict object returned by `AntiSpam.detect`. -/
structure SpamVerdict where
  detected : Bool
  type : SpamType
  messageCount : Nat
  deriving DecidableEq, Repr

/-- Embedding of `AntiSpam.detect(sender, messageContent, timestamp)`:
prunes the sender's history to the time window, appends the current
message, stores the new history back into the tracker, and evaluates
the three spam patterns on it. Returns the updated tracker along with
the verdict: the call both reads and writes the `messageTracker` state
carried over from previous calls. -/
def antiSpamDetect (tracker : MessageTracker) (sender content : String)
    (timestamp : Nat) : MessageTracker × SpamVerdict :=
  let senderNumber := numberOf sender
  let userMessages := tracker senderNumber
  let recentMessages := userMessages.filter
    (fun msg => timestamp - msg.timestamp < antiSpamSettings.timeWindow)
  let newMessages := recentMessages ++ [⟨timestamp, content⟩]
  let tracker2 := setTrackerEntry tracker senderNumber newMessages
  let rapid := detectRapidFire newMessages
  let dup := detectDuplicate newMessages
  let flood := detectCharacterFloodSpam content
  (tracker2, ⟨rapid || dup || flood, getSpamType rapid dup flood, newMessages.length⟩)

/-- Per-group feature toggles and defense mode
(source: `Database.getDefaultGroupSettings` fields). -/
structure GroupSettings where
  antiLink : Bool
  antiSpam : Bool
  antiToxic : Bool
  antiVirtex : Bool
  welcome : Bool
  goodbye : Bool
  geoRestriction : Bool
  defenseMode : DefenseMode
  deriving DecidableEq, Repr

/-- The store slice consulted on the member-join path: the auth lists,
the protected-group list, and the geo-restriction whitelist. -/
structure JoinDb where
  authDb : AuthDb
  protectedGroups : List String
  geoWhitelist : List String
  deriving DecidableEq, Repr

/-- Embedding of `Database.isProtected(groupId)`. -/
def isProtectedGroup (db : JoinDb) (groupId : String) : Bool :=
  db.protectedGroups.contains groupId

/-- The `phoneNumber.replace(non-digits, empty)` cleanup of
`GeoRestriction.detect`. -/
def cleanPhoneNumber (s : String) : String :=
  String.mk (s.toList.filter Char.isDigit)

/-- Embedding of the allow decision of `GeoRestriction.detect`:
whitelisted numbers are allowed, otherwise the cleaned number must start
with an allowed country code (the list is just '62'). -/
def geoRestrictionAllowed (whitelist : List String) (phoneNumber : String) : Bool :=
  let clean := cleanPhoneNumber phoneNumber
  if whitelist.contains clean then true
  else List.isPrefixOf "62".toList clean.toList

/-- Why a joining member was blocked by `DefenseEngine.checkNewMember`. -/
inductive JoinBlockReason
  | blacklistedMember
  | geoRestricted
  deriving DecidableEq, Repr

/-- Embedding of `DefenseEngine.checkNewMember`: skip unprotected
groups and privileged members, kick blacklisted numbers, then apply the
geo-restriction when the module is enabled for the group. -/
def checkNewMember (db : JoinDb) (settings : GroupSettings)
    (groupId participant : String) : Option JoinBlockReason :=
  if !(isProtectedGroup db groupId) then none
  else
    let phoneNumber := numberOf participant
    if isAuthorOrOwner db.authDb phoneNumber then none
    else if isBlacklisted db.authDb phoneNumber then some .blacklistedMember
    else if !(geoRestrictionAllowed db.geoWhitelist phoneNumber) &&
        settings.geoRestriction then some .geoRestricted
    else none

/-- Observable events of the member-join handler. -/
inductive JoinEvent
  | defenseChecked (participant : String)
  | memberKicked (participant : String) (reason : JoinBlockReason)
  | welcomed (participant : String)
  deriving DecidableEq, Repr

/-- The per-participant loop of `GroupHandler.handleMemberJoin`: run the
defense check for each joining participant; a blocked member is kicked
(by the defense engine) and skipped, the others get the welcome
message. -/
def joinLoop (db : JoinDb) (settings : GroupSettings) (groupId : String) :
    List String → List JoinEvent
  | [] => []
  | p :: rest =>
    match checkNewMember db settings groupId p with
    | some r => .defenseChecked p :: .memberKicked p r ::
        joinLoop db settings groupId rest
    | none => .defenseChecked p :: .welcomed p ::
        joinLoop db settings groupId rest

/-- Embedding of `GroupHandler.handleMemberJoin`: returns immediately
when the group's welcome setting is off, before any defense check;
otherwise processes every joining participant. -/
def handleMemberJoin (db : JoinDb) (settings : GroupSettings)
    (groupId : String) (participants : List String) : List JoinEvent :=
  if settings.welcome = false then []
  else joinLoop db settings groupId participants

end Bot

namespace Bot

theorem getWarnCount_setWarnEntry (m : WarnMap) (n : String) (c : Nat) :
    getWarnCount (setWarnEntry m n c) n = c := by
  simp [getWarnCount, setWarnEntry]

theorem getWarnCount_resetWarn (m : WarnMap) (n : String) :
    getWarnCount (resetWarn m n) n = 0 := by
  simp [getWarnCount, resetWarn]

/-- C1 counterexample: the claim that every module applies the single
spec matrix fails at (medium, STRICT): the spec matrix says mute, the
AntiVirtex module says warn, and the AntiToxic module says mute, so the
two modules even disagree with each other; moreover AntiToxic maps
critical to warn (fallback), not kick. -/
theorem claim1_counterexample :
    specActionMatrix .medium .STRICT = .mute ∧
    antiVirtexDetermineAction .medium .STRICT = .warn ∧
    antiToxicDetermineAction .medium .STRICT = .mute ∧
    antiVirtexDetermineAction .medium .STRICT ≠ antiToxicDetermineAction .medium .STRICT ∧
    antiToxicDetermineAction .critical .NORMAL = .warn := by
  decide

/-- C1 (amended): each module's action is a fixed pure function of
(severity, mode), but the two modules use different matrices.
AntiVirtex: critical kicks in every mode; NORMAL warns everywhere;
STRICT warns on low/medium and kicks on high; LOCKDOWN warns on low and
kicks on medium/high. AntiToxic has no critical override (critical falls
back to warn); NORMAL warns everywhere; STRICT warns on low and mutes on
medium/high; LOCKDOWN mutes on low and kicks on medium/high. -/
theorem claim1_amended :
    (∀ m : DefenseMode, antiVirtexDetermineAction .critical m = .kick) ∧
    (∀ s : Severity, s ≠ .critical → antiVirtexDetermineAction s .NORMAL = .warn) ∧
    antiVirtexDetermineAction .low .STRICT = .warn ∧
    antiVirtexDetermineAction .medium .STRICT = .warn ∧
    antiVirtexDetermineAction .high .STRICT = .kick ∧
    antiVirtexDetermineAction .low .LOCKDOWN = .warn ∧
    antiVirtexDetermineAction .medium .LOCKDOWN = .kick ∧
    antiVirtexDetermineAction .high .LOCKDOWN = .kick ∧
    (∀ m : DefenseMode, antiToxicDetermineAction .critical m = .warn) ∧
    (∀ s : Severity, s ≠ .critical → antiToxicDetermineAction s .NORMAL = .warn) ∧
    antiToxicDetermineAction .low .STRICT = .warn ∧
    antiToxicDetermineAction .medium .STRICT = .mute ∧
    antiToxicDetermineAction .high .STRICT = .mute ∧
    antiToxicDetermineAction .low .LOCKDOWN = .mute ∧
    antiToxicDetermineAction .medium .LOCKDOWN = .kick ∧
    antiToxicDetermineAction .high .LOCKDOWN = .kick := by
  decide

/-- C2: each applied warn increments the user's warning count by one;
on the third warn (count reaching the maximum 3) the handler kicks the
user exactly once and resets the counter to zero, so three consecutive
warn-triggering violations leave the count at 0 and produce one kick. -/
theorem claim2_warn_escalation (m : WarnMap) (u : String)
    (sev : Severity) (mode : DefenseMode)
    (hwarn : antiVirtexDetermineAction sev mode = .warn)
    (h0 : getWarnCount m u = 0)
    (s1 s2 s3 : WarnMap) (e1 e2 e3 : List HandleEvent)
    (h1 : antiVirtexHandle m u sev mode = (s1, e1))
    (h2 : antiVirtexHandle s1 u sev mode = (s2, e2))
    (h3 : antiVirtexHandle s2 u sev mode = (s3, e3)) :
    getWarnCount s1 u = 1 ∧ e1.count .kicked = 0 ∧
    getWarnCount s2 u = 2 ∧ e2.count .kicked = 0 ∧
    getWarnCount s3 u = 0 ∧ e3.count .kicked = 1 ∧
    e3 = [.msgDeleted, .kicked, .warnNotice 3] := by
  have hh1 : antiVirtexHandle m u sev mode =
      (setWarnEntry m u 1, [.msgDeleted, .warnNotice 1]) := by
    unfold antiVirtexHandle addWarn
    rw [hwarn, h0]
    rfl
  rw [hh1] at h1
  obtain ⟨hs1, he1⟩ := Prod.mk.injEq .. ▸ h1
  subst hs1; subst he1
  have hc1 : getWarnCount (setWarnEntry m u 1) u = 1 := getWarnCount_setWarnEntry m u 1
  have hh2 : antiVirtexHandle (setWarnEntry m u 1) u sev mode =
      (setWarnEntry (setWarnEntry m u 1) u 2, [.msgDeleted, .warnNotice 2]) := by
    unfold antiVirtexHandle addWarn
    rw [hwarn, hc1]
    rfl
  rw [hh2] at h2
  obtain ⟨hs2, he2⟩ := Prod.mk.injEq .. ▸ h2
  subst hs2; subst he2
  have hc2 : getWarnCount (setWarnEntry (setWarnEntry m u 1) u 2) u = 2 :=
    getWarnCount_setWarnEntry _ u 2
  have hh3 : antiVirtexHandle (setWarnEntry (setWarnEntry m u 1) u 2) u sev mode =
      (resetWarn (setWarnEntry (setWarnEntry (setWarnEntry m u 1) u 2) u 3) u,
        [.msgDeleted, .kicked, .warnNotice 3]) := by
    unfold antiVirtexHandle addWarn
    rw [hwarn, hc2]
    rfl
  rw [hh3] at h3
  obtain ⟨hs3, he3⟩ := Prod.mk.injEq .. ▸ h3
  subst hs3; subst he3
  refine ⟨hc1, by decide, hc2, by decide, getWarnCount_resetWarn _ u, by decide, rfl⟩

/-- C2 witness: concrete run of the escalation from an empty warn store,
for a low-severity violation in NORMAL mode. -/
theorem claim2_warn_escalation_witness :
    antiVirtexDetermineAction .low .NORMAL = .warn ∧
    getWarnCount (fun _ => none) "628111" = 0 ∧
    (getWarnCount
        (resetWarn
          (setWarnEntry (setWarnEntry (setWarnEntry (fun _ => none) "628111" 1) "628111" 2)
            "628111" 3) "628111") "628111" = 0 ∧
      List.count HandleEvent.kicked [.msgDeleted, .kicked, .warnNotice 3] = 1) :=
  ⟨rfl, rfl, by
    have h := claim2_warn_escalation (fun _ => none) "628111" .low .NORMAL rfl rfl
      (setWarnEntry (fun _ => none) "628111" 1)
      (setWarnEntry (setWarnEntry (fun _ => none) "628111" 1) "628111" 2)
      (resetWarn
        (setWarnEntry (setWarnEntry (setWarnEntry (fun _ => none) "628111" 1) "628111" 2)
          "628111" 3) "628111")
      [.msgDeleted, .warnNotice 1] [.msgDeleted, .warnNotice 2]
      [.msgDeleted, .kicked, .warnNotice 3] rfl rfl rfl
    exact ⟨h.2.2.2.2.1, h.2.2.2.2.2.1⟩⟩

theorem checkMessageLoop_fst (enabled detect : ModuleName → Bool) :
    ∀ l : List ModuleName,
      (checkMessageLoop enabled detect l).1 =
        l.find? (fun m => enabled m && runModuleDetection detect m) := by
  intro l
  induction l with
  | nil => rfl
  | cons m rest ih =>
    by_cases he : enabled m = true
    · by_cases hd : runModuleDetection detect m = true
      · simp [checkMessageLoop, he, hd, List.find?]
      · simp only [Bool.not_eq_true] at hd
        simp [checkMessageLoop, he, hd, List.find?, ih]
    · simp only [Bool.not_eq_true] at he
      simp [checkMessageLoop, he, List.find?, ih]

theorem checkMessageLoop_consulted (enabled detect : ModuleName → Bool) :
    ∀ (l : List ModuleName) (m : ModuleName),
      m ∈ (checkMessageLoop enabled detect l).2 →
      (enabled m && runModuleDetection detect m) = false ∨
        (checkMessageLoop enabled detect l).1 = some m := by
  intro l
  induction l with
  | nil => intro m hm; simp [checkMessageLoop] at hm
  | cons a rest ih =>
    intro m hm
    by_cases he : enabled a = true
    · by_cases hd : runModuleDetection detect a = true
      · simp [checkMessageLoop, he, hd] at hm ⊢
        subst hm
        exact Or.inr rfl
      · simp only [Bool.not_eq_true] at hd
        simp only [checkMessageLoop, he, hd, if_true, Bool.false_eq_true, if_false,
          List.mem_cons] at hm ⊢
        rcases hm with hm | hm
        · subst hm
          exact Or.inl (by simp [hd])
        · exact ih m hm
    · simp only [Bool.not_eq_true] at he
      simp only [checkMessageLoop, he, Bool.false_eq_true, if_false] at hm ⊢
      exact ih m hm

theorem defenseModules_pairwise :
    List.Pairwise (fun a b => modulePriority a < modulePriority b) defenseModules := by
  decide

theorem mem_defenseModules (m : ModuleName) : m ∈ defenseModules := by
  cases m <;> decide

/-- If some module passing the enabled-and-detected test has priority
value p, the module the loop settles on has priority value at most p. -/
theorem find_pass_priority_le (pass : ModuleName → Bool) (m1 y : ModuleName)
    (hm1 : pass m1 = true) (hy : defenseModules.find? pass = some y) :
    modulePriority y ≤ modulePriority m1 := by
  rw [List.find?_eq_some] at hy
  obtain ⟨hpy, as, bs, heq, hall⟩ := hy
  have hm1mem : m1 ∈ defenseModules := mem_defenseModules m1
  rw [heq] at hm1mem
  rcases List.mem_append.mp hm1mem with hin | hin
  · have := hall m1 hin
    rw [hm1] at this
    simp at this
  · have hpw := defenseModules_pairwise
    rw [heq] at hpw
    have hright := (List.pairwise_append.mp hpw).2.1
    rcases List.mem_cons.mp hin with hin | hin
    · exact hin ▸ Nat.le_refl _
    · exact Nat.le_of_lt (List.rel_of_pairwise_cons hright hin)

/-- C3: the engine's module list is exactly flood/crash (antiVirtex),
profanity (antiToxic), link, message spam, then geo-restriction (which
never fires on the message path); when two enabled modules would both
detect a message, the loop settles on a module of priority at most the
higher-priority one, never on the lower-priority module, and the
lower-priority module's detection is never even consulted. -/
theorem claim3_priority_short_circuit (enabled detect : ModuleName → Bool)
    (m1 m2 : ModuleName)
    (he1 : enabled m1 = true) (he2 : enabled m2 = true)
    (hd1 : runModuleDetection detect m1 = true)
    (hd2 : runModuleDetection detect m2 = true)
    (hp : modulePriority m1 < modulePriority m2) :
    defenseModules = [.antiVirtex, .antiToxic, .antiLink, .antiSpam, .geoRestriction] ∧
    (∃ m, (checkMessageLoop enabled detect defenseModules).1 = some m ∧
      modulePriority m ≤ modulePriority m1) ∧
    (checkMessageLoop enabled detect defenseModules).1 ≠ some m2 ∧
    m2 ∉ (checkMessageLoop enabled detect defenseModules).2 := by
  have hfst := checkMessageLoop_fst enabled detect defenseModules
  have hpass1 : (enabled m1 && runModuleDetection detect m1) = true := by
    simp [he1, hd1]
  have hpass2 : (enabled m2 && runModuleDetection detect m2) = true := by
    simp [he2, hd2]
  have hsome : ∃ y, (checkMessageLoop enabled detect defenseModules).1 = some y := by
    rw [hfst]
    cases hcase : defenseModules.find?
        (fun m => enabled m && runModuleDetection detect m) with
    | none =>
      rw [List.find?_eq_none] at hcase
      exact absurd hpass1 (by simpa using hcase m1 (mem_defenseModules m1))
    | some y => exact ⟨y, rfl⟩
  obtain ⟨y, hy⟩ := hsome
  have hyle : modulePriority y ≤ modulePriority m1 :=
    find_pass_priority_le _ m1 y hpass1 (hfst ▸ hy)
  have hne : (checkMessageLoop enabled detect defenseModules).1 ≠ some m2 := by
    intro hcontra
    have := find_pass_priority_le _ m1 m2 hpass1 (hfst ▸ hcontra)
    omega
  refine ⟨rfl, ⟨y, hy, hyle⟩, hne, ?_⟩
  intro hmem
  rcases checkMessageLoop_consulted enabled detect defenseModules m2 hmem with hfail | hres
  · rw [hpass2] at hfail
    exact Bool.noConfusion hfail
  · exact hne hres

/-- C3 witness: with every module enabled and every detector firing,
the engine acts on antiVirtex and never consults antiToxic. -/
theorem claim3_priority_short_circuit_witness :
    (∃ m, (checkMessageLoop (fun _ => true) (fun _ => true) defenseModules).1 = some m ∧
      modulePriority m ≤ modulePriority .antiVirtex) ∧
    (checkMessageLoop (fun _ => true) (fun _ => true) defenseModules).1 ≠
      some .antiToxic ∧
    ModuleName.antiToxic ∉
      (checkMessageLoop (fun _ => true) (fun _ => true) defenseModules).2 :=
  have h := claim3_priority_short_circuit (fun _ => true) (fun _ => true)
    .antiVirtex .antiToxic rfl rfl rfl rfl (by decide)
  ⟨h.2.1, h.2.2.1, h.2.2.2⟩

/-- C4: for an existing command, the dispatcher runs authorization,
per-command cooldown, argument validation and the global rate budget in
that strict order; the first failing check sends a reason message and
returns false with no later check, no handler run, no usage increment
and no cooldown commit; when everything passes the handler runs and is
followed by the usage increment and the cooldown commit. -/
theorem claim4_dispatch_pipeline (env : DispatchEnv) (h : env.commandExists = true) :
    (env.authAuthorized = false →
      commandManagerExecute env = (false, [.authCheck, .authReasonSent])) ∧
    (env.authAuthorized = true → env.onCooldown = true →
      commandManagerExecute env =
        (false, [.authCheck, .cooldownCheck, .cooldownReasonSent])) ∧
    (env.authAuthorized = true → env.onCooldown = false → env.valid = false →
      commandManagerExecute env =
        (false, [.authCheck, .cooldownCheck, .validationCheck, .validationReasonSent])) ∧
    (env.authAuthorized = true → env.onCooldown = false → env.valid = true →
      env.rateLimited = true →
      commandManagerExecute env =
        (false, [.authCheck, .cooldownCheck, .validationCheck, .rateCheck,
          .rateReasonSent])) ∧
    (env.authAuthorized = true → env.onCooldown = false → env.valid = true →
      env.rateLimited = false → env.handlerThrows = false →
      commandManagerExecute env =
        (true, [.authCheck, .cooldownCheck, .validationCheck, .rateCheck,
          .handlerRun, .usageIncremented, .cooldownCommitted])) ∧
    ((commandManagerExecute env).1 = false →
      DispatchStep.usageIncremented ∉ (commandManagerExecute env).2 ∧
      DispatchStep.cooldownCommitted ∉ (commandManagerExecute env).2) := by
  refine ⟨?_, ?_, ?_, ?_, ?_, ?_⟩ <;>
    · simp only [commandManagerExecute, h]
      intros
      first
        | (simp_all; split_ifs <;> simp_all)
        | simp_all

/-- C4 witness: an authorization failure on an existing command stops
the pipeline after sending the reason message. -/
theorem claim4_dispatch_pipeline_witness :
    commandManagerExecute ⟨true, false, false, true, false, false⟩ =
      (false, [.authCheck, .authReasonSent]) :=
  (claim4_dispatch_pipeline ⟨true, false, false, true, false, false⟩ rfl).1 rfl

/-- C5: when all checks pass but the handler throws, the dispatcher
catches the exception, reports an error, returns false, and neither the
usage counter nor the per-command cooldown commit runs, so the failed
dispatch leaves no new cooldown entry. -/
theorem claim5_handler_exception (env : DispatchEnv)
    (h1 : env.commandExists = true) (h2 : env.authAuthorized = true)
    (h3 : env.onCooldown = false) (h4 : env.valid = true)
    (h5 : env.rateLimited = false) (h6 : env.handlerThrows = true) :
    commandManagerExecute env =
      (false, [.authCheck, .cooldownCheck, .validationCheck, .rateCheck,
        .handlerRun, .errorReported]) ∧
    DispatchStep.errorReported ∈ (commandManagerExecute env).2 ∧
    DispatchStep.cooldownCommitted ∉ (commandManagerExecute env).2 ∧
    DispatchStep.usageIncremented ∉ (commandManagerExecute env).2 := by
  simp [commandManagerExecute, h1, h2, h3, h4, h5, h6]

/-- C5 witness: the concrete throwing dispatch commits no cooldown. -/
theorem claim5_handler_exception_witness :
    commandManagerExecute ⟨true, true, false, true, false, true⟩ =
      (false, [.authCheck, .cooldownCheck, .validationCheck, .rateCheck,
        .handlerRun, .errorReported]) ∧
    DispatchStep.cooldownCommitted ∉
      (commandManagerExecute ⟨true, true, false, true, false, true⟩).2 :=
  have h := claim5_handler_exception ⟨true, true, false, true, false, true⟩
    rfl rfl rfl rfl rfl rfl
  ⟨h.1, h.2.2.1⟩

/-- C6: a user who is in neither the author list nor the owner list is
denied by the authorization check for required role owner and for
required role author, both at the checkAuth entry point and in the
underlying role comparison. -/
theorem claim6_nonprivileged_denied (db : AuthDb) (sender : String)
    (ha : isAuthor db (numberOf sender) = false)
    (ho : isOwner db (numberOf sender) = false) :
    (checkAuth db sender .owner).authorized = false ∧
    (checkAuth db sender .author).authorized = false ∧
    (checkRole db (numberOf sender) .owner).authorized = false ∧
    (checkRole db (numberOf sender) .author).authorized = false := by
  have hrole : ∀ r : Role, roleLevel .user < roleLevel r →
      (checkRole db (numberOf sender) r).authorized = false := by
    intro r hr
    simp [checkRole, ha, ho, hr]
  refine ⟨?_, ?_, hrole .owner (by decide), hrole .author (by decide)⟩ <;>
    · simp only [checkAuth]
      split_ifs <;>
        first
          | rfl
          | exact hrole _ (by decide)

/-- C6 witness: a plain member is denied both owner-level and
author-level authorization in a concrete store. -/
theorem claim6_nonprivileged_denied_witness :
    isAuthor ⟨["628999"], ["628888"], [], [], .PUBLIC⟩
        (numberOf "628555@s.whatsapp.net") = false ∧
    (checkAuth ⟨["628999"], ["628888"], [], [], .PUBLIC⟩
        "628555@s.whatsapp.net" .owner).authorized = false ∧
    (checkAuth ⟨["628999"], ["628888"], [], [], .PUBLIC⟩
        "628555@s.whatsapp.net" .author).authorized = false :=
  have h := claim6_nonprivileged_denied ⟨["628999"], ["628888"], [], [], .PUBLIC⟩
    "628555@s.whatsapp.net" (by decide) (by decide)
  ⟨by decide, h.1, h.2.1⟩

theorem filter_filter_of_implies {p q : Nat → Bool}
    (h : ∀ x, q x = true → p x = true) :
    ∀ l : List Nat, (l.filter p).filter q = l.filter q := by
  intro l
  induction l with
  | nil => rfl
  | cons a l ih =>
    by_cases hq : q a = true
    · have hp := h a hq
      simp [List.filter_cons, hp, hq, ih]
    · simp only [Bool.not_eq_true] at hq
      by_cases hp : p a = true
      · simp [List.filter_cons, hp, hq, ih]
      · simp only [Bool.not_eq_true] at hp
        simp [List.filter_cons, hp, hq, ih]

theorem rateWin_mono {t' T x : Nat} (h : t' ≤ T) (hx : T - x < rateTimeWindow) :
    t' - x < rateTimeWindow := by
  simp only [rateTimeWindow] at hx ⊢
  omega

/-- Invariant of the lazy-pruning window: as long as call times are
nondecreasing, pruning never discards an inserted entry that is still
inside the window of any later query time, so the retained entries and
the inserted entries agree on every window filter at or after the
current time. -/
theorem runRate_filter_eq (T : Nat) :
    ∀ (ts : List Nat) (s ins : List Nat) (t0 : Nat),
      List.Chain' (· ≤ ·) (t0 :: (ts ++ [T])) →
      (∀ T', t0 ≤ T' →
        s.filter (fun t => T' - t < rateTimeWindow) =
          ins.filter (fun t => T' - t < rateTimeWindow)) →
      (runRate ts s).filter (fun t => T - t < rateTimeWindow) =
        (ins ++ insertedRate ts s).filter (fun t => T - t < rateTimeWindow) := by
  intro ts
  induction ts with
  | nil =>
    intro s ins t0 hchain hs
    have ht0T : t0 ≤ T := by
      rcases List.chain'_cons'.mp hchain with ⟨hh, _⟩
      exact hh T rfl
    simpa [runRate, insertedRate] using hs T ht0T
  | cons t ts ih =>
    intro s ins t0 hchain hs
    have ht0t : t0 ≤ t := by
      rcases List.chain'_cons'.mp hchain with ⟨hh, _⟩
      exact hh t rfl
    have hchain' : List.Chain' (· ≤ ·) (t :: (ts ++ [T])) :=
      (List.chain'_cons'.mp hchain).2
    have hrecent : ∀ T', t ≤ T' →
        (s.filter (fun x => t - x < rateTimeWindow)).filter
            (fun x => T' - x < rateTimeWindow) =
          ins.filter (fun x => T' - x < rateTimeWindow) := by
      intro T' hT'
      rw [filter_filter_of_implies
        (fun x hx => by
          simp only [decide_eq_true_eq] at hx ⊢
          exact rateWin_mono hT' hx)]
      exact hs T' (Nat.le_trans ht0t hT')
    simp only [runRate, insertedRate, checkGlobalRateLimit, Bool.false_eq_true,
      if_false]
    by_cases hlim : rateMaxRequests ≤
        (s.filter (fun x => t - x < rateTimeWindow)).length
    · simp only [if_pos hlim]
      exact ih _ ins t hchain' (fun T' hT' => hrecent T' hT')
    · simp only [if_neg hlim, Bool.false_eq_true, if_false]
      have := ih (s.filter (fun x => t - x < rateTimeWindow) ++ [t]) (ins ++ [t]) t
        hchain'
        (fun T' hT' => by
          simp only [List.filter_append]
          rw [hrecent T' hT'])
      rw [List.append_cons ins t (insertedRate ts _)]
      exact this

/-- C7 (amended): after any nondecreasing sequence of request times, the
count the global rate window reports at a query time T equals the number
of inserted entries inside the half-open window (strictly newer than
T minus 60 seconds, i.e. with T - t < 60000), and the user is blocked
exactly when that count has reached the budget of 10 per 60 seconds. -/
theorem claim7_rate_window_halfopen (ts : List Nat) (T : Nat)
    (hchain : List.Chain' (· ≤ ·) (ts ++ [T])) :
    ((runRate ts []).filter (fun t => T - t < rateTimeWindow)).length =
      ((insertedRate ts []).filter (fun t => T - t < rateTimeWindow)).length ∧
    (checkGlobalRateLimit false (runRate ts []) T).1 =
      decide (rateMaxRequests ≤
        ((insertedRate ts []).filter (fun t => T - t < rateTimeWindow)).length) := by
  have hchain0 : List.Chain' (· ≤ ·) (0 :: (ts ++ [T])) :=
    List.chain'_cons'.mpr ⟨fun y _ => Nat.zero_le y, hchain⟩
  have hmain := runRate_filter_eq T ts [] [] 0 hchain0 (fun T' _ => rfl)
  simp only [List.nil_append] at hmain
  refine ⟨by rw [hmain], ?_⟩
  simp only [checkGlobalRateLimit, Bool.false_eq_true, if_false]
  rw [hmain]
  by_cases hlim : rateMaxRequests ≤
      ((insertedRate ts []).filter (fun t => T - t < rateTimeWindow)).length
  · simp [hlim]
  · simp [hlim]

/-- C7 witness: a concrete nondecreasing sequence of two requests,
queried shortly afterwards, reports both entries and is not blocked. -/
theorem claim7_rate_window_halfopen_witness :
    ((runRate [0, 5] []).filter (fun t => 10 - t < rateTimeWindow)).length =
      ((insertedRate [0, 5] []).filter (fun t => 10 - t < rateTimeWindow)).length ∧
    (checkGlobalRateLimit false (runRate [0, 5] []) 10).1 =
      decide (rateMaxRequests ≤
        ((insertedRate [0, 5] []).filter (fun t => 10 - t < rateTimeWindow)).length) :=
  claim7_rate_window_halfopen [0, 5] 10
    (by simp [List.chain'_cons, List.chain'_singleton])

/-- C7 counterexample: an entry inserted at time 0 lies inside the
closed interval of the claim at query time 60000 (with the 60000 ms
window), yet the window reports zero entries, because the code keeps
only entries with T - t strictly less than the window span. -/
theorem claim7_counterexample :
    ((runRate [0] []).filter (fun t => 60000 - t < rateTimeWindow)).length = 0 ∧
    ((insertedRate [0] []).filter
        (fun t => 60000 - rateTimeWindow ≤ t && t ≤ 60000)).length = 1 := by
  decide

theorem foldr_max_le_iff (l : List Nat) (m : Nat) :
    l.foldr max 0 ≤ m ↔ ∀ x ∈ l, x ≤ m := by
  induction l with
  | nil => simp
  | cons a l ih => simp [List.foldr_cons, max_le_iff, ih]

theorem le_foldr_max (l : List Nat) (x : Nat) (hx : x ∈ l) :
    x ≤ l.foldr max 0 := by
  induction l with
  | nil => cases hx
  | cons a l ih =>
    rcases List.mem_cons.mp hx with h | h
    · exact h ▸ le_max_left _ _
    · exact le_trans (ih h) (le_max_right _ _)

theorem threshold_le_foldr_max_iff {n : Nat} (hn : 0 < n) (l : List Nat) :
    n ≤ l.foldr max 0 ↔ ∃ x ∈ l, n ≤ x := by
  induction l with
  | nil =>
    simp only [List.foldr_nil, List.not_mem_nil, false_and, exists_false, iff_false]
    omega
  | cons a l ih =>
    simp only [List.foldr_cons, List.mem_cons]
    constructor
    · intro h
      rcases le_max_iff.mp h with h | h
      · exact ⟨a, Or.inl rfl, h⟩
      · obtain ⟨x, hx, hnx⟩ := ih.mp h
        exact ⟨x, Or.inr hx, hnx⟩
    · rintro ⟨x, hx | hx, hnx⟩
      · exact le_trans (hx ▸ hnx) (le_max_left _ _)
      · exact le_trans (le_trans hnx (le_foldr_max l x hx)) (le_max_right _ _)

theorem mem_charFloodMatches (units : List Nat) (r : Nat × Nat) :
    r ∈ charFloodMatches units ↔
      r ∈ runsOf units ∧ jsDotMatches r.1 = true ∧ 10 ≤ r.2 := by
  simp [charFloodMatches, List.mem_filter, and_assoc]

theorem mem_dotRuns (units : List Nat) (r : Nat × Nat) :
    r ∈ (runsOf units).filter (fun r => jsDotMatches r.1) ↔
      r ∈ runsOf units ∧ jsDotMatches r.1 = true := by
  simp [List.mem_filter]

/-- Sanity check of the regex model against JavaScript semantics: the
dot does not match line terminators, so a message of 50 newlines
produces no regex match and no detection, in either detector. -/
theorem checkRepeatedCharacters_newlines :
    checkRepeatedCharacters (String.mk (List.replicate 50 (Char.ofNat 10))) = none ∧
    detectCharacterFloodSpam (String.mk (List.replicate 50 (Char.ofNat 10))) = false := by
  decide

/-- C8 counterexample: a message that is exactly one run of 10 repeated
letters is a match of the repeated-character regex, yet the detector
reports nothing, because its reporting threshold is 50, not 10. -/
theorem claim8_counterexample :
    checkRepeatedCharacters (String.mk (List.replicate 10 'a')) = none ∧
    10 ≤ maxFloodRunLen (utf16Units (String.mk (List.replicate 10 'a'))) := by
  decide

/-- C8 (amended): the repeated-character detector fires exactly when the
longest run of equal adjacent UTF-16 code units capturable by the regex
dot (so excluding line-terminator runs, and astral characters never
form runs of equal units) reaches the threshold of 50: the regex
collects such runs of 10 or more, but the verdict requires the longest
to reach `repeatedCharThreshold` = 50; any detection it reports has
severity high and carries the longest run length. -/
theorem claim8_repeated_threshold (msg : String) :
    ((checkRepeatedCharacters msg).isSome =
      decide (repeatedCharThreshold ≤ maxFloodRunLen (utf16Units msg))) ∧
    (∀ d : RepeatedDetection, checkRepeatedCharacters msg = some d →
      d.severity = .high ∧ d.count = maxFloodRunLen (utf16Units msg)) := by
  have h50 : repeatedCharThreshold = 50 := rfl
  unfold checkRepeatedCharacters
  cases hm : charFloodMatches (utf16Units msg) with
  | nil =>
    have hnone : ¬ repeatedCharThreshold ≤ maxFloodRunLen (utf16Units msg) := by
      intro hcon
      obtain ⟨x, hx, hnx⟩ := (threshold_le_foldr_max_iff (by decide) _).mp hcon
      obtain ⟨r, hr, rfl⟩ := List.mem_map.mp hx
      obtain ⟨hrun, hdot⟩ := (mem_dotRuns _ r).mp hr
      have h10 : 10 ≤ r.2 := by omega
      have hrf : r ∈ charFloodMatches (utf16Units msg) :=
        (mem_charFloodMatches _ r).mpr ⟨hrun, hdot, h10⟩
      rw [hm] at hrf
      cases hrf
    refine ⟨?_, ?_⟩
    · simpa using hnone
    · intro d hd
      cases hd
  | cons m rest =>
    have hsubmem : ∀ r ∈ (m :: rest),
        r ∈ (runsOf (utf16Units msg)).filter (fun r => jsDotMatches r.1) ∧
          10 ≤ r.2 := by
      intro r hr
      have hrf : r ∈ charFloodMatches (utf16Units msg) := hm ▸ hr
      obtain ⟨hrun, hdot, h10⟩ := (mem_charFloodMatches _ r).mp hrf
      exact ⟨(mem_dotRuns _ r).mpr ⟨hrun, hdot⟩, h10⟩
    have hLle : ((m :: rest).map (fun r => r.2)).foldr max 0 ≤
        maxFloodRunLen (utf16Units msg) := by
      apply (foldr_max_le_iff _ _).mpr
      intro x hx
      obtain ⟨r, hr, rfl⟩ := List.mem_map.mp hx
      exact le_foldr_max _ _ (List.mem_map.mpr ⟨r, (hsubmem r hr).1, rfl⟩)
    by_cases hge : repeatedCharThreshold ≤ ((m :: rest).map (fun r => r.2)).foldr max 0
    · have hmax : maxFloodRunLen (utf16Units msg) =
          ((m :: rest).map (fun r => r.2)).foldr max 0 := by
        apply Nat.le_antisymm
        · apply (foldr_max_le_iff _ _).mpr
          intro x hx
          obtain ⟨r, hr, rfl⟩ := List.mem_map.mp hx
          obtain ⟨hrun, hdot⟩ := (mem_dotRuns _ r).mp hr
          by_cases h10 : 10 ≤ r.2
          · have hrf : r ∈ charFloodMatches (utf16Units msg) :=
              (mem_charFloodMatches _ r).mpr ⟨hrun, hdot, h10⟩
            rw [hm] at hrf
            exact le_foldr_max _ _ (List.mem_map.mpr ⟨r, hrf, rfl⟩)
          · omega
        · exact hLle
      refine ⟨?_, ?_⟩
      · dsimp only
        rw [if_pos hge, hmax]
        exact (decide_eq_true hge).symm
      · intro d hd
        dsimp only at hd
        rw [if_pos hge] at hd
        have hd' : d = ⟨m.1, ((m :: rest).map (fun r => r.2)).foldr max 0, .high⟩ :=
          (Option.some.inj hd).symm
        subst hd'
        exact ⟨rfl, hmax.symm⟩
    · have hnone : ¬ repeatedCharThreshold ≤ maxFloodRunLen (utf16Units msg) := by
        intro hcon
        obtain ⟨x, hx, hnx⟩ := (threshold_le_foldr_max_iff (by decide) _).mp hcon
        obtain ⟨r, hr, rfl⟩ := List.mem_map.mp hx
        obtain ⟨hrun, hdot⟩ := (mem_dotRuns _ r).mp hr
        have h10 : 10 ≤ r.2 := by omega
        have hrf : r ∈ charFloodMatches (utf16Units msg) :=
          (mem_charFloodMatches _ r).mpr ⟨hrun, hdot, h10⟩
        rw [hm] at hrf
        have hrl : r.2 ≤ ((m :: rest).map (fun r => r.2)).foldr max 0 :=
          le_foldr_max _ _ (List.mem_map.mpr ⟨r, hrf, rfl⟩)
        exact hge (le_trans hnx hrl)
      refine ⟨?_, ?_⟩
      · dsimp only
        rw [if_neg hge]
        simpa using hnone
      · intro d hd
        dsimp only at hd
        rw [if_neg hge] at hd
        cases hd

/-- C8 witness: a run of 50 identical letters is detected, with
severity high and the run length as the count. -/
theorem claim8_repeated_threshold_witness :
    ((checkRepeatedCharacters (String.mk (List.replicate 50 'a'))).isSome =
      decide (repeatedCharThreshold ≤
        maxFloodRunLen (utf16Units (String.mk (List.replicate 50 'a'))))) ∧
    (RepeatedDetection.severity ⟨97, 50, .high⟩ = .high ∧
      RepeatedDetection.count ⟨97, 50, .high⟩ =
        maxFloodRunLen (utf16Units (String.mk (List.replicate 50 'a')))) :=
  ⟨(claim8_repeated_threshold (String.mk (List.replicate 50 'a'))).1,
    (claim8_repeated_threshold (String.mk (List.replicate 50 'a'))).2
      ⟨97, 50, .high⟩ (by decide)⟩

/-- C9 counterexample: AntiSpam's detect is not pure: three calls with
the identical input (same sender, content and timestamp) return
different verdicts, because each call records the message in the
per-user tracker carried over between calls; the third identical call
is flagged as duplicate spam. -/
theorem claim9_counterexample :
    (antiSpamDetect (fun _ => []) "628000@s.whatsapp.net" "halo" 100).2.detected
      = false ∧
    (antiSpamDetect
        (antiSpamDetect
          (antiSpamDetect (fun _ => []) "628000@s.whatsapp.net" "halo" 100).1
          "628000@s.whatsapp.net" "halo" 100).1
        "628000@s.whatsapp.net" "halo" 100).2.detected = true ∧
    (antiSpamDetect (fun _ => []) "628000@s.whatsapp.net" "halo" 100).2 ≠
      (antiSpamDetect
        (antiSpamDetect
          (antiSpamDetect (fun _ => []) "628000@s.whatsapp.net" "halo" 100).1
          "628000@s.whatsapp.net" "halo" 100).1
        "628000@s.whatsapp.net" "halo" 100).2 := by
  decide

/-- C9 (amended): AntiSpam's detect is deterministic only as a function
of the tracker state together with the input: it reads and updates the
per-user message history, so for any content that does not itself
trigger the character-flood pattern, three identical calls from an
empty tracker yield not-detected, not-detected, then a duplicate-spam
detection — the verdict changes with the hidden history even though the
input is fixed. -/
theorem claim9_stateful_duplicate (sender content : String) (t : Nat)
    (hflood : detectCharacterFloodSpam content = false)
    (tr1 tr2 tr3 : MessageTracker) (v1 v2 v3 : SpamVerdict)
    (h1 : antiSpamDetect (fun _ => []) sender content t = (tr1, v1))
    (h2 : antiSpamDetect tr1 sender content t = (tr2, v2))
    (h3 : antiSpamDetect tr2 sender content t = (tr3, v3)) :
    v1.detected = false ∧ v2.detected = false ∧ v3.detected = true ∧
    v3.type = .duplicate ∧ v1 ≠ v3 := by
  have hh1 : antiSpamDetect (fun _ => []) sender content t =
      (setTrackerEntry (fun _ => []) (numberOf sender) [⟨t, content⟩],
        ⟨false, .noSpam, 1⟩) := by
    simp [antiSpamDetect, detectRapidFire, detectDuplicate, getSpamType,
      hflood, antiSpamSettings]
  rw [hh1] at h1
  obtain ⟨hs1, hv1⟩ := Prod.mk.injEq .. ▸ h1
  subst hs1; subst hv1
  have hh2 : antiSpamDetect
      (setTrackerEntry (fun _ => []) (numberOf sender) [⟨t, content⟩])
      sender content t =
      (setTrackerEntry
        (setTrackerEntry (fun _ => []) (numberOf sender) [⟨t, content⟩])
        (numberOf sender) [⟨t, content⟩, ⟨t, content⟩],
        ⟨false, .noSpam, 2⟩) := by
    simp [antiSpamDetect, setTrackerEntry, detectRapidFire, detectDuplicate,
      getSpamType, hflood, antiSpamSettings, maxDuplicates, countEqStr,
      Nat.sub_self]
  rw [hh2] at h2
  obtain ⟨hs2, hv2⟩ := Prod.mk.injEq .. ▸ h2
  subst hs2; subst hv2
  have hh3 : antiSpamDetect
      (setTrackerEntry
        (setTrackerEntry (fun _ => []) (numberOf sender) [⟨t, content⟩])
        (numberOf sender) [⟨t, content⟩, ⟨t, content⟩])
      sender content t =
      (setTrackerEntry
        (setTrackerEntry
          (setTrackerEntry (fun _ => []) (numberOf sender) [⟨t, content⟩])
          (numberOf sender) [⟨t, content⟩, ⟨t, content⟩])
        (numberOf sender) [⟨t, content⟩, ⟨t, content⟩, ⟨t, content⟩],
        ⟨true, .duplicate, 3⟩) := by
    simp [antiSpamDetect, setTrackerEntry, detectRapidFire, detectDuplicate,
      getSpamType, hflood, antiSpamSettings, maxDuplicates, countEqStr,
      Nat.sub_self]
  rw [hh3] at h3
  obtain ⟨hs3, hv3⟩ := Prod.mk.injEq .. ▸ h3
  subst hs3; subst hv3
  refine ⟨rfl, rfl, rfl, rfl, by decide⟩

/-- C9 witness: the concrete three-call run behind the amended claim. -/
theorem claim9_stateful_duplicate_witness :
    detectCharacterFloodSpam "halo" = false ∧
    ((antiSpamDetect (fun _ => []) "628000@s.whatsapp.net" "halo" 100).2.detected
        = false ∧
      (antiSpamDetect
          (antiSpamDetect
            (antiSpamDetect (fun _ => []) "628000@s.whatsapp.net" "halo" 100).1
            "628000@s.whatsapp.net" "halo" 100).1
          "628000@s.whatsapp.net" "halo" 100).2.type = .duplicate) :=
  have h := claim9_stateful_duplicate "628000@s.whatsapp.net" "halo" 100
    (by decide)
    (antiSpamDetect (fun _ => []) "628000@s.whatsapp.net" "halo" 100).1
    (antiSpamDetect
      (antiSpamDetect (fun _ => []) "628000@s.whatsapp.net" "halo" 100).1
      "628000@s.whatsapp.net" "halo" 100).1
    (antiSpamDetect
      (antiSpamDetect
        (antiSpamDetect (fun _ => []) "628000@s.whatsapp.net" "halo" 100).1
        "628000@s.whatsapp.net" "halo" 100).1
      "628000@s.whatsapp.net" "halo" 100).1
    (antiSpamDetect (fun _ => []) "628000@s.whatsapp.net" "halo" 100).2
    (antiSpamDetect
      (antiSpamDetect (fun _ => []) "628000@s.whatsapp.net" "halo" 100).1
      "628000@s.whatsapp.net" "halo" 100).2
    (antiSpamDetect
      (antiSpamDetect
        (antiSpamDetect (fun _ => []) "628000@s.whatsapp.net" "halo" 100).1
        "628000@s.whatsapp.net" "halo" 100).1
      "628000@s.whatsapp.net" "halo" 100).2
    rfl rfl rfl
  ⟨by decide, h.1, h.2.2.2.1⟩

/-- C10: when a group's welcome setting is disabled, the member-join
handler returns before anything else happens: no defense check runs, no
blacklist or geo-restriction kick is applied, and no welcome is sent —
join-path moderation is active only when welcome is enabled. -/
theorem claim10_welcome_gates_join (db : JoinDb) (settings : GroupSettings)
    (groupId : String) (participants : List String)
    (hw : settings.welcome = false) :
    handleMemberJoin db settings groupId participants = [] ∧
    (∀ p, JoinEvent.defenseChecked p ∉
      handleMemberJoin db settings groupId participants) ∧
    (∀ p r, JoinEvent.memberKicked p r ∉
      handleMemberJoin db settings groupId participants) := by
  have h : handleMemberJoin db settings groupId participants = [] := by
    simp [handleMemberJoin, hw]
  refine ⟨h, ?_, ?_⟩ <;> simp [h]

/-- C10 witness: even a blacklisted, foreign-numbered joiner in a
protected group is untouched when welcome is off. -/
theorem claim10_welcome_gates_join_witness :
    GroupSettings.welcome ⟨true, true, true, true, false, true, true, .NORMAL⟩
      = false ∧
    handleMemberJoin ⟨⟨[], [], ["15550001"], [], .PUBLIC⟩, ["g1"], []⟩
      ⟨true, true, true, true, false, true, true, .NORMAL⟩
      "g1" ["15550001@s.whatsapp.net"] = [] :=
  ⟨rfl,
    (claim10_welcome_gates_join ⟨⟨[], [], ["15550001"], [], .PUBLIC⟩, ["g1"], []⟩
      ⟨true, true, true, true, false, true, true, .NORMAL⟩
      "g1" ["15550001@s.whatsapp.net"] rfl).1⟩

end Bot
